import Mathlib

/-!
Verification of the blinddateai mobile client and its match-lifecycle core
against the repository specification.

The shallow embedding below translates, from the sources:
- `mockApi.verifyOTP` (src/mobile/src/services/mockApi.ts)
- `BlindChatScreen.handleNewMessage` (src/mobile/src/screens, blind chat)
- `WebSocketService` (connect / disconnect / attemptReconnect / onmessage)
- `CompatibilityMeter.getColor` / `getLabel` and the reveal threshold in
  `src/mobile/src/config/index.ts`
- `useUserStore.logout` and the persisted key-value storage
- the client side of the decision flow (`ProfileRevealScreen`)

The Decision Reconciliation Coordinator itself is backend code that is not
among the mobile sources (the bundled `mockApi` is a stub for UI
development); it is modelled from the specification where noted.
-/

/-- Result of a mock API call: either a data payload or an error string,
mirroring the `ApiResponse` shape with its optional `data` / `error`. -/
inductive ApiResult (α : Type) where
  | ok (data : α)
  | err (msg : String)
deriving DecidableEq, Repr

/-- Payload of a successful `verifyOTP` call: `access_token`, `user_id`,
`status`. -/
structure TokenResponse where
  access_token : String
  user_id : String
  status : String
deriving DecidableEq, Repr

/-- `mockApi.verifyOTP`: accepts any non-empty OTP — the guard
`if (otp && otp.length > 0)` is true exactly for non-empty strings (the
empty string is falsy in JS) — returning fixed mock credentials, and an
error for the empty string. -/
def verifyOTP (phoneNumber otp : String) : ApiResult TokenResponse :=
  if otp.length > 0 then
    ApiResult.ok ⟨"mock-token-12345", "user-mock-id", "onboarding"⟩
  else
    ApiResult.err "Please enter an OTP"

/-- One chat message as held by `BlindChatScreen` (interface `Message`):
`id`, `sender_id`, `content`, `created_at`, `is_mine`. There is no
sequence field. -/
structure ChatMessage where
  id : String
  sender_id : String
  content : String
  created_at : String
  is_mine : Bool
deriving DecidableEq, Repr

/-- The JS test `newMessage.sender_id !== userId`, where `userId` may be
null: a string compared with null by `!==` always differs. -/
def senderDiffers (sid : String) (userId : Option String) : Bool :=
  match userId with
  | none => true
  | some u => sid ≠ u

/-- `BlindChatScreen.handleNewMessage`: appends the incoming message with
`is_mine := false` when its `sender_id` differs from the local `userId`,
otherwise ignores the event. No deduplication is performed. -/
def handleNewMessage (userId : Option String) (msgs : List ChatMessage)
    (m : ChatMessage) : List ChatMessage :=
  if senderDiffers m.sender_id userId then
    msgs ++ [{ m with is_mine := false }]
  else
    msgs

/-- Claim C9: verifyOTP succeeds with the fixed mock credentials exactly
when the OTP string is non-empty, and returns the error exactly when the
OTP string is empty. -/
theorem C9_verifyOTP_any_nonempty_code (phoneNumber otp : String) :
    (verifyOTP phoneNumber otp
        = ApiResult.ok ⟨"mock-token-12345", "user-mock-id", "onboarding"⟩
      ↔ 1 ≤ otp.length)
    ∧ (verifyOTP phoneNumber otp = ApiResult.err "Please enter an OTP"
      ↔ otp = "") := by
  have hempty : otp.length = 0 ↔ otp = "" := by
    constructor
    · intro h
      cases otp with
      | mk data =>
        cases data with
        | nil => rfl
        | cons c cs => simp [String.length] at h
    · intro h
      subst h
      rfl
  by_cases h : otp.length > 0
  · constructor
    · simp [verifyOTP, h]
      omega
    · simp [verifyOTP, h]
      intro hcon
      have : otp.length = 0 := hempty.mpr hcon
      omega
  · have h0 : otp.length = 0 := by omega
    constructor
    · simp [verifyOTP, h]
      omega
    · simp [verifyOTP, h]
      exact hempty.mp h0

/-- Claim C6: an incoming message event is appended to the conversation
iff its `sender_id` differs from the local participant's `userId`; an echo
of the local sender leaves the message list unchanged. -/
theorem C6_no_self_delivery (u : String) (msgs : List ChatMessage)
    (m : ChatMessage) :
    (handleNewMessage (some u) msgs m
        = msgs ++ [{ m with is_mine := false }] ↔ m.sender_id ≠ u)
    ∧ (handleNewMessage (some u) msgs m = msgs ↔ m.sender_id = u) := by
  by_cases h : m.sender_id = u
  · simp [handleNewMessage, senderDiffers, h]
  · simp [handleNewMessage, senderDiffers, h]

/-- Claim C7 counterexample: the receiver performs no deduplication —
delivering the same partner message event twice appends it twice, so the
resulting list differs from a single delivery. -/
theorem C7_counterexample_no_dedup :
    handleNewMessage (some "user-mock-id")
        (handleNewMessage (some "user-mock-id") []
          ⟨"msg-1", "other-user", "hi", "T0", false⟩)
        ⟨"msg-1", "other-user", "hi", "T0", false⟩
      ≠ handleNewMessage (some "user-mock-id") []
          ⟨"msg-1", "other-user", "hi", "T0", false⟩ := by
  decide

/-- Claim C7 amended: the receiver deduplicates nothing (the client message
type has no sequence field): every non-self message event is appended, so
a redelivered event is appended a second time. -/
theorem C7_amended_redelivery_appends_twice (u : String)
    (msgs : List ChatMessage) (m : ChatMessage) (h : m.sender_id ≠ u) :
    handleNewMessage (some u) (handleNewMessage (some u) msgs m) m
      = msgs ++ [{ m with is_mine := false }, { m with is_mine := false }] := by
  simp [handleNewMessage, senderDiffers, h]

/-- Witness for the amended C7 statement at a concrete redelivered
message. -/
theorem C7_amended_redelivery_appends_twice_witness :
    ("other-user" : String) ≠ "user-mock-id"
    ∧ handleNewMessage (some "user-mock-id")
        (handleNewMessage (some "user-mock-id") []
          ⟨"msg-1", "other-user", "hi", "T0", false⟩)
        ⟨"msg-1", "other-user", "hi", "T0", false⟩
      = [⟨"msg-1", "other-user", "hi", "T0", false⟩,
         ⟨"msg-1", "other-user", "hi", "T0", false⟩] := by
  refine ⟨by decide, ?_⟩
  have h := C7_amended_redelivery_appends_twice "user-mock-id" []
    ⟨"msg-1", "other-user", "hi", "T0", false⟩ (by decide)
  simpa using h

/-- Ready state of the underlying WebSocket handle. -/
inductive SocketReadyState where
  | connecting
  | opened
  | closing
  | closed
deriving DecidableEq, Repr

/-- Decoded wire envelope, the result of `JSON.parse` viewed as a
`WSMessage`: a `type` plus the raw `data` payload text. -/
structure WSMessage where
  type : String
  data : String
deriving DecidableEq, Repr

/-- Observable side effects of `WebSocketService` operations. The
`reportConnectionLost` constructor is the report the specification claims
at backoff exhaustion; the translated code never emits it. -/
inductive WSEffect where
  | createSocket (matchId : String)
  | closeSocket
  | logAttempt (n maxN : Nat)
  | logParseError
  | invokeHandler (type : String) (handler : Nat)
  | scheduleReconnect (delayMs : Nat)
  | reportConnectionLost
deriving DecidableEq, Repr

/-- State of the `WebSocketService` singleton: the socket (null or its
ready state), the per-type handler registrations, `reconnectAttempts`, and
the stored `matchId`. -/
structure WSState where
  socket : Option SocketReadyState
  handlers : List (String × List Nat)
  reconnectAttempts : Nat
  matchId : Option String
deriving DecidableEq, Repr

/-- `maxReconnectAttempts = 5`. -/
def maxReconnectAttempts : Nat := 5

/-- JS truthiness of `this.matchId`: null and the empty string are falsy. -/
def truthyStr : Option String → Bool
  | none => false
  | some s => s ≠ ""

/-- `WebSocketService.disconnect`: if a socket is present it is closed and
nulled; `matchId` is nulled unconditionally. -/
def wsDisconnect (st : WSState) : WSState × List WSEffect :=
  match st.socket with
  | some _ => ({ st with socket := none, matchId := none }, [WSEffect.closeSocket])
  | none => ({ st with matchId := none }, [])

/-- `WebSocketService.connect`: returns immediately when the socket is
OPEN and already bound to the requested `matchId`; otherwise it stores the
`matchId`, calls `disconnect` (which nulls it again), and creates a fresh
socket for the requested match. -/
def wsConnect (st : WSState) (mid : String) : WSState × List WSEffect :=
  if st.socket = some SocketReadyState.opened ∧ st.matchId = some mid then
    (st, [])
  else
    let st1 := { st with matchId := some mid }
    let p := wsDisconnect st1
    ({ p.1 with socket := some SocketReadyState.connecting },
      p.2 ++ [WSEffect.createSocket mid])

/-- `WebSocketService.attemptReconnect`: while fewer than
`maxReconnectAttempts` attempts have been made and `matchId` is truthy, it
increments the counter to `n`, logs the attempt, and schedules a reconnect
after `2000 * n` milliseconds; otherwise it does nothing at all — in
particular it never emits any ConnectionLost report. -/
def attemptReconnect (st : WSState) : WSState × List WSEffect :=
  if st.reconnectAttempts < maxReconnectAttempts ∧ truthyStr st.matchId = true then
    ({ st with reconnectAttempts := st.reconnectAttempts + 1 },
      [WSEffect.logAttempt (st.reconnectAttempts + 1) maxReconnectAttempts,
       WSEffect.scheduleReconnect (2000 * (st.reconnectAttempts + 1))])
  else
    (st, [])

/-- Model of `JSON.parse` applied to an inbound frame and read as the wire
envelope: accepts exactly the strings of shape
`\x7b"type":"T","data":R\x7d` where `T` contains no quote, and fails on
every other string (the malformed case of claim C5). -/
def parseEnvelope (raw : String) : Except String WSMessage :=
  let pre := "\x7b\"type\":\""
  if raw.startsWith pre then
    match (raw.drop pre.length).splitOn "\",\"data\":" with
    | [t, rest] =>
      if rest.endsWith "\x7d" && !(t.contains '\"') then
        Except.ok ⟨t, rest.dropRight 1⟩
      else Except.error "SyntaxError"
    | _ => Except.error "SyntaxError"
  else Except.error "SyntaxError"

/-- `WebSocketService.emit`: invokes every handler registered for the
event type; the service state itself is untouched. -/
def wsEmit (st : WSState) (ty : String) : WSState × List WSEffect :=
  match st.handlers.find? (fun p => p.1 == ty) with
  | some p => (st, p.2.map (fun h => WSEffect.invokeHandler ty h))
  | none => (st, [])

/-- The `socket.onmessage` handler: the body parses the envelope and emits
it; the surrounding catch makes the handler total, so a parse failure is
logged and the frame dropped with the service state untouched. -/
def socketOnMessage (st : WSState) (raw : String) : WSState × List WSEffect :=
  match parseEnvelope raw with
  | Except.ok m => wsEmit st m.type
  | Except.error _ => (st, [WSEffect.logParseError])

/-- Claim C5: a frame whose payload fails to parse as the wire envelope is
dropped and logged; the handler returns normally with the service state
unchanged (so an open connection stays open) and never emits a close. -/
theorem C5_malformed_frame_dropped (st : WSState) (raw : String) (e : String)
    (h : parseEnvelope raw = Except.error e) :
    socketOnMessage st raw = (st, [WSEffect.logParseError])
    ∧ (socketOnMessage st raw).1.socket = st.socket
    ∧ WSEffect.closeSocket ∉ (socketOnMessage st raw).2 := by
  have hmain : socketOnMessage st raw = (st, [WSEffect.logParseError]) := by
    unfold socketOnMessage
    rw [h]
  refine ⟨hmain, by rw [hmain], by rw [hmain]; simp⟩

/-- Witness for C5 at a concrete malformed frame and an open session. -/
theorem C5_malformed_frame_dropped_witness :
    parseEnvelope "garbage" = Except.error "SyntaxError"
    ∧ socketOnMessage ⟨some SocketReadyState.opened, [], 0, some "m1"⟩ "garbage"
        = (⟨some SocketReadyState.opened, [], 0, some "m1"⟩,
            [WSEffect.logParseError]) := by
  refine ⟨by rfl, ?_⟩
  exact (C5_malformed_frame_dropped
    ⟨some SocketReadyState.opened, [], 0, some "m1"⟩ "garbage" "SyntaxError"
    (by rfl)).1

/-- Claim C8: connect is idempotent on an open channel bound to the same
matchId: it returns immediately with no effects and no state change (same
socket, matchId, handler map, and reconnect counter). -/
theorem C8_connect_idempotent_on_open (st : WSState) (mid : String)
    (hOpen : st.socket = some SocketReadyState.opened)
    (hMid : st.matchId = some mid) :
    wsConnect st mid = (st, []) := by
  simp [wsConnect, hOpen, hMid]

/-- Witness for C8 at a concrete open state. -/
theorem C8_connect_idempotent_on_open_witness :
    wsConnect ⟨some SocketReadyState.opened, [("message", [0])], 2,
        some "match-mock-id"⟩ "match-mock-id"
      = (⟨some SocketReadyState.opened, [("message", [0])], 2,
          some "match-mock-id"⟩, []) :=
  C8_connect_idempotent_on_open _ _ rfl rfl

/-- `WebSocketService.on`: registers a handler for the event type,
creating the entry on first use and appending the handler to it. -/
def wsOn (st : WSState) (ty : String) (h : Nat) : WSState :=
  match st.handlers.find? (fun p => p.1 == ty) with
  | some _ =>
      { st with handlers :=
          st.handlers.map (fun p => if p.1 == ty then (p.1, p.2 ++ [h]) else p) }
  | none => { st with handlers := st.handlers ++ [(ty, [h])] }

/-- `WebSocketService.off`: removes the first matching registration of the
handler for the event type (indexOf plus splice). -/
def wsOff (st : WSState) (ty : String) (h : Nat) : WSState :=
  { st with handlers :=
      st.handlers.map (fun p => if p.1 == ty then (p.1, p.2.erase h) else p) }

/-- The initial field values of the `WebSocketService` singleton:
`socket = null`, empty handler map, `reconnectAttempts = 0`,
`matchId = null`. -/
def initialWSState : WSState := ⟨none, [], 0, none⟩

/-- The service states reachable from the initial field values through
the service operations and socket callbacks: `connect`, `disconnect`, the
`onopen` handler (resets the attempt counter), the `onclose` handler
(runs `attemptReconnect`), the `onmessage` handler, handler registration
and removal, and the browser moving an existing socket through its ready
states. `send`, `sendTyping`, and `onerror` do not change these fields. -/
inductive WSReachable : WSState → Prop where
  | init : WSReachable initialWSState
  | connect (st : WSState) (mid : String) :
      WSReachable st → WSReachable (wsConnect st mid).1
  | disconnect (st : WSState) :
      WSReachable st → WSReachable (wsDisconnect st).1
  | onopen (st : WSState) :
      WSReachable st → WSReachable { st with reconnectAttempts := 0 }
  | onclose (st : WSState) :
      WSReachable st → WSReachable (attemptReconnect st).1
  | onmessage (st : WSState) (raw : String) :
      WSReachable st → WSReachable (socketOnMessage st raw).1
  | onReg (st : WSState) (ty : String) (h : Nat) :
      WSReachable st → WSReachable (wsOn st ty h)
  | offReg (st : WSState) (ty : String) (h : Nat) :
      WSReachable st → WSReachable (wsOff st ty h)
  | socketTransition (st : WSState) (s : SocketReadyState) :
      st.socket.isSome = true →
      WSReachable st → WSReachable { st with socket := some s }

/-- `disconnect` always leaves the stored matchId null. -/
theorem wsDisconnect_matchId (st : WSState) :
    (wsDisconnect st).1.matchId = none := by
  obtain ⟨sock, hnd, ra, mi⟩ := st
  cases sock <;> rfl

/-- `connect` from a state whose stored matchId is already null leaves it
null: the early return cannot fire (it needs `matchId = some mid`), and
the main path stores the matchId but the `disconnect()` call that follows
immediately nulls it again before the socket is created. -/
theorem wsConnect_matchId (st : WSState) (mid : String)
    (h : st.matchId = none) : (wsConnect st mid).1.matchId = none := by
  obtain ⟨sock, hnd, ra, mi⟩ := st
  have h2 : mi = none := h
  subst h2
  cases sock with
  | none => rfl
  | some s => cases s <;> rfl

/-- With the stored matchId null, `attemptReconnect` takes its else
branch: the state is unchanged and no effect is emitted. -/
theorem attemptReconnect_of_matchId_none (st : WSState)
    (h : st.matchId = none) : attemptReconnect st = (st, []) := by
  have hguard :
      ¬ (st.reconnectAttempts < maxReconnectAttempts
          ∧ truthyStr st.matchId = true) := by
    intro hc
    rw [h] at hc
    exact absurd hc.2 (by decide)
  unfold attemptReconnect
  rw [if_neg hguard]

/-- `emit` never changes the service state. -/
theorem wsEmit_fst (st : WSState) (ty : String) : (wsEmit st ty).1 = st := by
  unfold wsEmit
  cases st.handlers.find? (fun p => p.1 == ty) <;> rfl

/-- The `onmessage` handler never changes the service state. -/
theorem socketOnMessage_fst (st : WSState) (raw : String) :
    (socketOnMessage st raw).1 = st := by
  unfold socketOnMessage
  cases parseEnvelope raw with
  | ok m => exact wsEmit_fst st m.type
  | error e => rfl

/-- Handler registration never changes the stored matchId. -/
theorem wsOn_matchId (st : WSState) (ty : String) (h : Nat) :
    (wsOn st ty h).matchId = st.matchId := by
  unfold wsOn
  cases st.handlers.find? (fun p => p.1 == ty) <;> rfl

/-- In every reachable service state the stored matchId is null:
`connect` is the only assignment of a non-null value, and its internal
`disconnect()` call immediately nulls it again. -/
theorem wsReachable_matchId_none (st : WSState) (h : WSReachable st) :
    st.matchId = none := by
  induction h with
  | init => rfl
  | connect st mid hst ih => exact wsConnect_matchId st mid ih
  | disconnect st hst ih => exact wsDisconnect_matchId st
  | onopen st hst ih => exact ih
  | onclose st hst ih =>
    rw [attemptReconnect_of_matchId_none st ih]
    exact ih
  | onmessage st raw hst ih =>
    rw [socketOnMessage_fst st raw]
    exact ih
  | onReg st ty hh hst ih => exact (wsOn_matchId st ty hh).trans ih
  | offReg st ty hh hst ih => exact ih
  | socketTransition st s hs hst ih => exact ih

/-- Claim C4 counterexample: at the concrete state reached by the first
`connect` from the initial state — the state every subsequent unexpected
close sees — the stored matchId is already null again, so
`attemptReconnect` schedules no retry whatsoever and reports nothing: the
program never enters the claimed 1..maxAttempts retry loop and never
reports ConnectionLost. -/
theorem C4_counterexample_no_retry_no_report :
    (wsConnect initialWSState "match-mock-id").1
        = ⟨some SocketReadyState.connecting, [], 0, none⟩
    ∧ attemptReconnect ⟨some SocketReadyState.connecting, [], 0, none⟩
        = (⟨some SocketReadyState.connecting, [], 0, none⟩, [])
    ∧ WSEffect.reportConnectionLost
        ∉ (attemptReconnect
            ⟨some SocketReadyState.connecting, [], 0, none⟩).2 := by
  refine ⟨by rfl, by rfl, ?_⟩
  intro hmem
  rw [show (attemptReconnect
      ⟨some SocketReadyState.connecting, [], 0, none⟩).2
      = [] from by rfl] at hmem
  exact List.not_mem_nil _ hmem

/-- Claim C4 amended: the reconnection loop is dead code: `connect()`
stores the matchId but its internal `disconnect()` call immediately nulls
it, and nothing else ever sets it, so in every reachable service state the
stored matchId is null; on every unexpected close `attemptReconnect`
therefore changes nothing and emits no effect — no reconnect is ever
scheduled (no delay of `2000 * n` ms or any other) and no ConnectionLost
is ever reported to the owning client context. -/
theorem C4_amended_never_retries (st : WSState) (h : WSReachable st) :
    attemptReconnect st = (st, [])
    ∧ (∀ d : Nat, WSEffect.scheduleReconnect d ∉ (attemptReconnect st).2)
    ∧ WSEffect.reportConnectionLost ∉ (attemptReconnect st).2 := by
  have hmain := attemptReconnect_of_matchId_none st
    (wsReachable_matchId_none st h)
  refine ⟨hmain, ?_, ?_⟩
  · intro d hmem
    rw [hmain] at hmem
    exact List.not_mem_nil _ hmem
  · intro hmem
    rw [hmain] at hmem
    exact List.not_mem_nil _ hmem

/-- Witness for the amended C4 at the concrete reachable state produced by
the first `connect` from the initial state. -/
theorem C4_amended_never_retries_witness :
    attemptReconnect ((wsConnect initialWSState "match-mock-id").1)
        = ((wsConnect initialWSState "match-mock-id").1, []) :=
  (C4_amended_never_retries ((wsConnect initialWSState "match-mock-id").1)
    (WSReachable.connect initialWSState "match-mock-id" WSReachable.init)).1

/-- `config.thresholds.compatibilityReveal = 0.80` from
src/mobile/src/config/index.ts. -/
def compatibilityReveal : Rat := 80 / 100

/-- `Math.round(score * 100)` as computed by `CompatibilityMeter` for its
non-negative score prop: round half up, i.e. the floor of `100 * s + 1/2`. -/
def meterPercentage (score : Rat) : Int := (100 * score + 1 / 2).floor

/-- `CompatibilityMeter.getColor`: hardcoded rounded-percentage cutoffs
80 / 60 / 40 (the config threshold is not consulted). -/
def getColor (score : Rat) : String :=
  if meterPercentage score ≥ 80 then "#10B981"
  else if meterPercentage score ≥ 60 then "#8B5CF6"
  else if meterPercentage score ≥ 40 then "#F59E0B"
  else "#6B7280"

/-- `CompatibilityMeter.getLabel`: same hardcoded cutoffs as `getColor`. -/
def getLabel (score : Rat) : String :=
  if meterPercentage score ≥ 80 then "Ready to reveal!"
  else if meterPercentage score ≥ 60 then "Great connection"
  else if meterPercentage score ≥ 40 then "Getting warmer"
  else "Keep chatting"

/-- The reveal-view subtitle of `ProfileRevealScreen`: a hardcoded string,
not derived from the config threshold. -/
def revealingSubtitle : String := "You\x27ve reached 80% compatibility"

/-- Claim C3 counterexample: at score 0.799 the meter shows the
reveal-ready label although 0.799 is strictly below the configured 0.80
threshold, so the displayed indicator is not equivalent to
`score ≥ compatibilityReveal`. -/
theorem C3_counterexample_meter_below_threshold :
    getLabel (799 / 1000) = "Ready to reveal!"
    ∧ ¬ compatibilityReveal ≤ (799 / 1000 : Rat) := by
  constructor
  · have hge : (80 : Int) ≤ meterPercentage (799 / 1000) := by
      unfold meterPercentage
      rw [Rat.le_floor]
      norm_num
    unfold getLabel
    rw [if_pos hge]
  · unfold compatibilityReveal
    norm_num

/-- Claim C3 amended: the meter readiness indicators use a hardcoded
rounded-percentage cutoff of 80 instead of the configured threshold: the
label is the reveal-ready one (and the color the reveal-ready green) iff
`round(100 * s) ≥ 80`, i.e. iff `s ≥ 0.795` — not iff
`s ≥ compatibilityReveal = 0.80`. -/
theorem C3_amended_meter_hardcoded_cutoff (s : Rat) :
    (getLabel s = "Ready to reveal!" ↔ 795 / 1000 ≤ s)
    ∧ (getColor s = "#10B981" ↔ 795 / 1000 ≤ s) := by
  have key : (80 ≤ meterPercentage s) ↔ (795 / 1000 : Rat) ≤ s := by
    unfold meterPercentage
    rw [Rat.le_floor]
    constructor
    · intro h
      have h2 : (80 : Rat) ≤ 100 * s + 1 / 2 := by exact_mod_cast h
      linarith
    · intro h
      have h2 : (80 : Rat) ≤ 100 * s + 1 / 2 := by linarith
      exact_mod_cast h2
  have hl : getLabel s = "Ready to reveal!" ↔ 80 ≤ meterPercentage s := by
    unfold getLabel
    by_cases h80 : meterPercentage s ≥ 80
    · simp [h80]
    · simp only [if_neg h80]
      simp only [h80, iff_false]
      split
      · decide
      · split
        · decide
        · decide
  have hc : getColor s = "#10B981" ↔ 80 ≤ meterPercentage s := by
    unfold getColor
    by_cases h80 : meterPercentage s ≥ 80
    · simp [h80]
    · simp only [if_neg h80]
      simp only [h80, iff_false]
      split
      · decide
      · split
        · decide
        · decide
  exact ⟨hl.trans key, hc.trans key⟩

/-- Match status of the specification state machine (and of the client
`MatchStatus` type). -/
inductive MStatus where
  | chatting
  | revealed
  | continuedM
  | ended
deriving DecidableEq, Repr

/-- A post-reveal choice: continue or pass. -/
inductive Choice where
  | cont
  | pass
deriving DecidableEq, Repr

/-- The two participants of a match. -/
inductive Participant where
  | A
  | B
deriving DecidableEq, Repr

/-- The other party of the match. -/
def Participant.other : Participant → Participant
  | Participant.A => Participant.B
  | Participant.B => Participant.A

/-- Modelled from the spec: the match fields the Decision Reconciliation
Coordinator reads and writes (status and both recorded decisions). The
backend match core is absent from the sources — only its callers and the
`mockApi` UI stub are present — so the structure follows §3 of the spec. -/
structure SpecMatch where
  status : MStatus
  decisionA : Option Choice
  decisionB : Option Choice
deriving DecidableEq, Repr

/-- Recorded decision of one participant. -/
def SpecMatch.decision (m : SpecMatch) : Participant → Option Choice
  | Participant.A => m.decisionA
  | Participant.B => m.decisionB

/-- Record a participant decision. -/
def SpecMatch.record (m : SpecMatch) : Participant → Choice → SpecMatch
  | Participant.A, d => { m with decisionA := some d }
  | Participant.B, d => { m with decisionB := some d }

/-- Errors of the decision coordinator per §7 of the spec. -/
inductive DecisionError where
  | invalidState
  | duplicateDecision
deriving DecidableEq, Repr

/-- Outcome returned to the submitting caller: the updated match and the
`waiting_for_partner` flag. -/
structure DecisionResult where
  updated : SpecMatch
  waitingForPartner : Bool
deriving DecidableEq, Repr

/-- Modelled from the spec: `submitDecision` running the Decision
Reconciliation Coordinator algorithm of §4.4 — reject outside REVEALED or
on a duplicate; record the decision; pass finalizes to ENDED immediately;
continue finalizes against the partner decision or waits. -/
def submitDecision (m : SpecMatch) (p : Participant) (d : Choice) :
    Except DecisionError DecisionResult :=
  if m.status ≠ MStatus.revealed then
    Except.error DecisionError.invalidState
  else if (m.decision p).isSome then
    Except.error DecisionError.duplicateDecision
  else
    match d with
    | Choice.pass =>
        Except.ok ⟨{ m.record p Choice.pass with status := MStatus.ended }, false⟩
    | Choice.cont =>
        match (m.record p Choice.cont).decision p.other with
        | some Choice.cont =>
            Except.ok ⟨{ m.record p Choice.cont with status := MStatus.continuedM }, false⟩
        | some Choice.pass =>
            Except.ok ⟨{ m.record p Choice.cont with status := MStatus.ended }, false⟩
        | none =>
            Except.ok ⟨m.record p Choice.cont, true⟩

/-- What the client does with a decision response
(`ProfileRevealScreen.submitDecision`). -/
inductive ClientAction where
  | startPolling
  | handleResult (status : MStatus)
deriving DecidableEq, Repr

/-- Client handling of the submitDecision response: with
`waiting_for_partner = true` it shows the waiting view and starts
`pollForResult`; otherwise it runs `handleResult` on the returned match
status at once. -/
def clientAfterDecision (waitingForPartner : Bool) (st : MStatus) : ClientAction :=
  if waitingForPartner then ClientAction.startPolling
  else ClientAction.handleResult st

/-- One tick of `ProfileRevealScreen.pollForResult`: a `getCurrentMatch`
payload whose status is no longer revealed stops the poll and yields that
status; no payload, or a still-revealed status, keeps polling (`none`). -/
def pollStep (resp : Option MStatus) : Option MStatus :=
  match resp with
  | some st => if st ≠ MStatus.revealed then some st else none
  | none => none

/-- Claim C1: in status REVEALED a fresh pass decision finalizes the match
immediately — the call returns ok with status ENDED and
`waiting_for_partner = false`, whatever the partner has decided (none, or
an already recorded continue) — and the client then handles the terminal
result at once, with no waiting phase. -/
theorem C1_pass_finalizes_immediately (m : SpecMatch) (p : Participant)
    (hrev : m.status = MStatus.revealed) (hfresh : m.decision p = none) :
    submitDecision m p Choice.pass
        = Except.ok ⟨{ m.record p Choice.pass with status := MStatus.ended }, false⟩
    ∧ clientAfterDecision false MStatus.ended
        = ClientAction.handleResult MStatus.ended := by
  constructor
  · unfold submitDecision
    rw [if_neg (by simp [hrev]), if_neg (by simp [hfresh])]
  · rfl

/-- Witness for C1: participant A passes while B has already chosen
continue; the match still ends immediately. -/
theorem C1_pass_finalizes_immediately_witness :
    (⟨MStatus.revealed, none, some Choice.cont⟩ : SpecMatch).status = MStatus.revealed
    ∧ (⟨MStatus.revealed, none, some Choice.cont⟩ : SpecMatch).decision Participant.A = none
    ∧ submitDecision ⟨MStatus.revealed, none, some Choice.cont⟩ Participant.A Choice.pass
        = Except.ok ⟨⟨MStatus.ended, some Choice.pass, some Choice.cont⟩, false⟩ := by
  refine ⟨rfl, rfl, ?_⟩
  have h := C1_pass_finalizes_immediately
    ⟨MStatus.revealed, none, some Choice.cont⟩ Participant.A rfl rfl
  simpa using h.1

/-- Claim C2: in status REVEALED with the partner undecided, a fresh
continue decision records the decision, leaves the match REVEALED, and
returns `waiting_for_partner = true`; the client then enters the polling
loop, and each poll tick keeps polling while the status is still revealed
and stops with the terminal status once it is not. -/
theorem C2_continue_waits_for_partner (m : SpecMatch) (p : Participant)
    (hrev : m.status = MStatus.revealed) (hfresh : m.decision p = none)
    (hother : m.decision p.other = none) :
    submitDecision m p Choice.cont = Except.ok ⟨m.record p Choice.cont, true⟩
    ∧ (m.record p Choice.cont).status = MStatus.revealed
    ∧ clientAfterDecision true MStatus.revealed = ClientAction.startPolling
    ∧ pollStep (some MStatus.revealed) = none
    ∧ (∀ st : MStatus, st ≠ MStatus.revealed → pollStep (some st) = some st) := by
  have hrecother : (m.record p Choice.cont).decision p.other = none := by
    cases p <;>
      simpa [SpecMatch.record, SpecMatch.decision, Participant.other] using hother
  refine ⟨?_, ?_, rfl, rfl, ?_⟩
  · unfold submitDecision
    rw [if_neg (by simp [hrev]), if_neg (by simp [hfresh])]
    rw [show (m.record p Choice.cont).decision p.other = none from hrecother]
  · cases p <;> simp [SpecMatch.record, hrev]
  · intro st hst
    simp [pollStep, hst]

/-- Witness for C2: participant A continues while B is undecided — the
match stays revealed and the caller is told to wait. -/
theorem C2_continue_waits_for_partner_witness :
    (⟨MStatus.revealed, none, none⟩ : SpecMatch).status = MStatus.revealed
    ∧ (⟨MStatus.revealed, none, none⟩ : SpecMatch).decision Participant.A = none
    ∧ (⟨MStatus.revealed, none, none⟩ : SpecMatch).decision Participant.A.other = none
    ∧ submitDecision ⟨MStatus.revealed, none, none⟩ Participant.A Choice.cont
        = Except.ok ⟨⟨MStatus.revealed, some Choice.cont, none⟩, true⟩
    ∧ pollStep (some MStatus.ended) = some MStatus.ended := by
  refine ⟨rfl, rfl, rfl, ?_, ?_⟩
  · have h := C2_continue_waits_for_partner
      ⟨MStatus.revealed, none, none⟩ Participant.A rfl rfl rfl
    simpa using h.1
  · have h := C2_continue_waits_for_partner
      ⟨MStatus.revealed, none, none⟩ Participant.A rfl rfl rfl
    exact h.2.2.2.2 MStatus.ended (by simp)

/-- In-memory session fields of the zustand user store. -/
structure UserStoreState where
  token : Option String
  userId : Option String
  status : Option String
  currentMatchId : Option String
deriving DecidableEq, Repr

/-- Persisted key-value storage (SecureStore, or localStorage on web),
modelled as an association list; lookup returns the first entry. -/
def Storage : Type := List (String × String)

/-- `storage.getItem`. -/
def storageGetItem (k : String) (s : Storage) : Option String :=
  match List.find? (fun p => p.1 == k) s with
  | some p => some p.2
  | none => none

/-- `storage.deleteItem`: removes every entry stored under the key. -/
def storageDeleteItem (k : String) (s : Storage) : Storage :=
  List.filter (fun p => p.1 != k) s

/-- `useUserStore.logout`: deletes the four persisted keys and then nulls
the four in-memory fields. -/
def logout (st : UserStoreState) (s : Storage) : UserStoreState × Storage :=
  let s1 := storageDeleteItem "token" s
  let s2 := storageDeleteItem "userId" s1
  let s3 := storageDeleteItem "status" s2
  let s4 := storageDeleteItem "currentMatchId" s3
  (⟨none, none, none, none⟩, s4)

/-- Deleting a key makes its lookup fail. -/
theorem storageGetItem_deleteItem_self (k : String) (s : Storage) :
    storageGetItem k (storageDeleteItem k s) = none := by
  have h : List.find? (fun p => p.1 == k) (List.filter (fun p => p.1 != k) s)
      = none := by
    rw [List.find?_eq_none]
    intro x hx
    have hmem := (List.mem_filter.mp hx).2
    simp only [bne_iff_ne, ne_eq, decide_not] at hmem
    simpa using hmem
  simp [storageGetItem, storageDeleteItem, h]

/-- Step lemma: deleting a key drops a matching head entry. -/
theorem storageDeleteItem_cons_eq (k2 : String) (hd : String × String)
    (tl : List (String × String)) (h : hd.1 = k2) :
    storageDeleteItem k2 (hd :: tl) = storageDeleteItem k2 tl := by
  simp [storageDeleteItem, List.filter_cons, h]

/-- Step lemma: deleting a key keeps a non-matching head entry. -/
theorem storageDeleteItem_cons_ne (k2 : String) (hd : String × String)
    (tl : List (String × String)) (h : hd.1 ≠ k2) :
    storageDeleteItem k2 (hd :: tl) = hd :: storageDeleteItem k2 tl := by
  simp [storageDeleteItem, List.filter_cons, h]

/-- Step lemma: lookup finds a matching head entry. -/
theorem storageGetItem_cons_eq (k : String) (hd : String × String)
    (tl : List (String × String)) (h : hd.1 = k) :
    storageGetItem k (hd :: tl) = some hd.2 := by
  simp [storageGetItem, List.find?_cons, h]

/-- Step lemma: lookup skips a non-matching head entry. -/
theorem storageGetItem_cons_ne (k : String) (hd : String × String)
    (tl : List (String × String)) (h : hd.1 ≠ k) :
    storageGetItem k (hd :: tl) = storageGetItem k tl := by
  simp [storageGetItem, List.find?_cons, h]

/-- Deleting some other key leaves a lookup unchanged. -/
theorem storageGetItem_deleteItem_other (k k2 : String) (s : Storage)
    (hk : k ≠ k2) :
    storageGetItem k (storageDeleteItem k2 s) = storageGetItem k s := by
  induction s with
  | nil => rfl
  | cons hd tl ih =>
    by_cases h2 : hd.1 = k2
    · have h1 : hd.1 ≠ k := by
        rw [h2]
        exact Ne.symm hk
      rw [storageDeleteItem_cons_eq k2 hd tl h2, ih,
        storageGetItem_cons_ne k hd tl h1]
    · rw [storageDeleteItem_cons_ne k2 hd tl h2]
      by_cases h1 : hd.1 = k
      · rw [storageGetItem_cons_eq k hd _ h1, storageGetItem_cons_eq k hd tl h1]
      · rw [storageGetItem_cons_ne k hd _ h1, ih,
          storageGetItem_cons_ne k hd tl h1]

/-- Claim C10: logout clears the whole client session — the in-memory
token, userId, status, and currentMatchId are all null afterwards, and the
four corresponding persisted storage keys no longer resolve. -/
theorem C10_logout_clears_session (st : UserStoreState) (s : Storage) :
    (logout st s).1 = ⟨none, none, none, none⟩
    ∧ storageGetItem "token" (logout st s).2 = none
    ∧ storageGetItem "userId" (logout st s).2 = none
    ∧ storageGetItem "status" (logout st s).2 = none
    ∧ storageGetItem "currentMatchId" (logout st s).2 = none := by
  refine ⟨rfl, ?_, ?_, ?_, ?_⟩
  · show storageGetItem "token"
      (storageDeleteItem "currentMatchId" (storageDeleteItem "status"
        (storageDeleteItem "userId" (storageDeleteItem "token" s)))) = none
    rw [storageGetItem_deleteItem_other _ _ _ (by decide),
      storageGetItem_deleteItem_other _ _ _ (by decide),
      storageGetItem_deleteItem_other _ _ _ (by decide),
      storageGetItem_deleteItem_self]
  · show storageGetItem "userId"
      (storageDeleteItem "currentMatchId" (storageDeleteItem "status"
        (storageDeleteItem "userId" (storageDeleteItem "token" s)))) = none
    rw [storageGetItem_deleteItem_other _ _ _ (by decide),
      storageGetItem_deleteItem_other _ _ _ (by decide),
      storageGetItem_deleteItem_self]
  · show storageGetItem "status"
      (storageDeleteItem "currentMatchId" (storageDeleteItem "status"
        (storageDeleteItem "userId" (storageDeleteItem "token" s)))) = none
    rw [storageGetItem_deleteItem_other _ _ _ (by decide),
      storageGetItem_deleteItem_self]
  · show storageGetItem "currentMatchId"
      (storageDeleteItem "currentMatchId" (storageDeleteItem "status"
        (storageDeleteItem "userId" (storageDeleteItem "token" s)))) = none
    rw [storageGetItem_deleteItem_self]
